import Mathlib

/-!
Shallow embedding of the webhook reconciliation engine of
`github_jira_sync_app/main.py` (the `bot` handler together with its helper
`merge_dicts`), plus proofs of the behavioural claims about it.

Modelling conventions:
* Python dictionaries coming from YAML/JSON are association lists of
  `String × JVal` (`JVal` is an atom-or-object value tree).
* The webhook payload's optional keys (`action`, `issue`, `comment`) are
  `Option` fields; accessing an absent key is the Python `KeyError`, modelled
  as the `BotOutcome.err` outcome.
* External collaborators (GitHub client, Jira client, markdown renderer) are
  an `Env` record supplying their answers; every call the handler makes to
  the Jira API or to `issue.create_comment` is recorded in an `Effect` trace,
  in the order the Python code performs the calls.
* Python `str.lower` is `strLower` (character-wise `Char.toLower`, matching
  the ASCII-only lowering the comparison logic relies on).
-/

mutual
/-- A YAML/JSON-ish value: an atomic scalar or a nested mapping. -/
inductive JVal where
  | atom : String → JVal
  | obj : JDict → JVal
/-- A Python `dict` as an ordered association structure of key/value pairs. -/
inductive JDict where
  | nil : JDict
  | cons : String → JVal → JDict → JDict
end

/-- First-match key lookup: Python `d[k]` / `k in d`. -/
def JDict.lookupKey : JDict → String → Option JVal
  | .nil, _ => none
  | .cons k v t, key => if k = key then some v else t.lookupKey key

/-- Replace the value stored at an existing key, keeping its position:
Python `d[k] = v` for a key already present. -/
def JDict.setKey : JDict → String → JVal → JDict
  | .nil, _, _ => .nil
  | .cons k v t, key, x => if k = key then .cons key x t else .cons k v (t.setKey key x)

/-- Concatenation of two dictionaries (used to insert a fresh key at the
end, which is where Python dict insertion puts it). -/
def JDict.append : JDict → JDict → JDict
  | .nil, d => d
  | .cons k v t, d => .cons k v (t.append d)

mutual
/-- The function `merge_dicts(d1, d2)` of main.py: merge `d2` into `d1` recursively;
a key of `d2` already in `d1` is skipped (never overridden) unless both
values are mappings, in which case they are merged recursively; a key of
`d2` absent from `d1` is inserted (at the end, as Python dict insertion). -/
def merge_dicts : JDict → JDict → JDict
  | d1, .nil => d1
  | d1, .cons k v rest => merge_dicts (mstep d1 k v) rest
/-- One step of `merge_dicts`: how the key/value pair `(k, v)` of `d2`
acts on the accumulated dictionary `d1`. -/
def mstep : JDict → String → JVal → JDict
  | d1, k, JVal.atom s =>
    match d1.lookupKey k with
    | some _ => d1
    | none => d1.append (.cons k (JVal.atom s) .nil)
  | d1, k, JVal.obj m2 =>
    match d1.lookupKey k with
    | some (JVal.obj m1) => d1.setKey k (JVal.obj (merge_dicts m1 m2))
    | some (JVal.atom _) => d1
    | none => d1.append (.cons k (JVal.obj m2) .nil)
end

/-- The value `mstep` leaves at key `k`: the old value wins unless both the
old and the incoming value are mappings (then they merge), or the key was
absent (then the incoming value is inserted). -/
def mstepVal : Option JVal → JVal → JVal
  | some (JVal.obj m1), JVal.obj m2 => JVal.obj (merge_dicts m1 m2)
  | some u, _ => u
  | none, v => v

mutual
/-- Python dicts have no duplicate keys, at any nesting depth; this is the
well-formedness every dictionary reaching `merge_dicts` satisfies. -/
def wfKeys : JDict → Bool
  | .nil => true
  | .cons k v t => (t.lookupKey k).isNone && wfVal v && wfKeys t
/-- Well-formedness of a value: its nested mappings have no duplicate keys. -/
def wfVal : JVal → Bool
  | .atom _ => true
  | .obj m => wfKeys m
end

/-- First-match association-list lookup (Python `d[k]` / `k in d` for the
flat string-to-string mappings of the settings record). -/
def lookupKey {α : Type} : List (String × α) → String → Option α
  | [], _ => none
  | (k, v) :: t, key => if k = key then some v else lookupKey t key

/-- Python `str.lower()` as used by the handler (ASCII lowering). -/
def strLower (s : String) : String := ⟨s.data.map Char.toLower⟩

/-- The `issue` sub-object of the webhook payload (`payload["issue"]`):
the fields the handler reads. Label entries are their `name` strings. -/
structure PIssue where
  number : Nat
  labels : List String
deriving DecidableEq

/-- The webhook payload, with the keys whose absence matters modelled as
`Option` (`action`, `issue`, `comment`); the others are read unconditionally
by the handler and are modelled as always present. -/
structure Payload where
  action : Option String
  issue : Option PIssue
  sender_login : String
  comment : Option String
  repo_owner : String
  repo_name : String
deriving DecidableEq

/-- The `settings["status_mapping"]` sub-mapping once known non-falsy: its `opened` and
`closed` entries. -/
structure StatusMapping where
  opened : String
  closed : String
deriving DecidableEq

/-- The merged `settings` section of `.github/.jira_sync_config.yaml`.
Falsy values are `""` / `none` / `[]`, matching the Python truthiness tests
the handler performs. -/
structure Settings where
  jira_project_key : String
  status_mapping : Option StatusMapping
  labels : List String
  label_mapping : List (String × String)
  sync_description : Bool
  epic_key : String
  components : List String
  add_gh_comment : Bool
  sync_comments : Bool
deriving DecidableEq

/-- Outcome of fetching and parsing the repo-local config file.
The handler's try/except around `yaml.safe_load` (main.py line 170) catches
only `yaml.scanner.ScannerError`; a document that fails to parse with any
other YAML error (`ParserError`, `ComposerError`, `ReaderError`, ...) is a
distinct case, `parseError`, whose exception propagates uncaught. -/
inductive ConfigFetch where
  | missing
  | invalid
  | parseError (ename : String)
  | parsed (settings : Settings)
deriving DecidableEq

/-- A Jira ticket as the handler observes it: its key, the component names
on it (`fields.components`), and its permalink. -/
structure JiraTicket where
  key : String
  components : List String
  permalink : String
deriving DecidableEq

/-- The GitHub issue object fetched for the event (`repo.get_issue(...)`). -/
structure GhIssue where
  html_url : String
  title : String
  body : String
  author_login : String
deriving DecidableEq

/-- The answers of all external collaborators for one webhook delivery. -/
structure Env where
  bot_name : String
  config : ConfigFetch
  gh_issue : GhIssue
  search_result : List JiraTicket
  project_components : List String
  render : String → String
  created_ticket : JiraTicket

/-- The `issue_dict` the handler assembles for the Jira API; `components`
is `some _` exactly when the key is put into the dict. -/
structure IssueDict where
  project_key : String
  summary : String
  description : String
  issuetype : String
  parent : Option String
  components : Option (List String)
deriving DecidableEq

/-- One side-effecting call of the handler, in program order. -/
inductive Effect where
  | createGhComment (text : String)
  | jiraSearch (project : String) (marker : String)
  | jiraProjectComponents (project : String)
  | jiraCreate (fields : IssueDict)
  | jiraTransition (ticketKey : String) (status : String)
  | jiraUpdate (ticketKey : String) (fields : IssueDict)
  | jiraAddComment (ticketKey : String) (text : String)
deriving DecidableEq

/-- A Python exception escaping the handler. -/
inductive PyErr where
  | keyError (key : String)
  | yamlError (ename : String)
deriving DecidableEq

/-- What the handler returns (or raises). `ok` is the string "ok";
`botIgnored` is the dict answer for the bot's own actions. -/
inductive BotOutcome where
  | ok
  | botIgnored
  | err (e : PyErr)
deriving DecidableEq

/-- Instantiation of `jira_issue_description_template`. -/
def jiraIssueDescription (url author body : String) : String :=
  "\nThis issue was created from GitHub Issue " ++ url ++
  "\nIssue was submitted by: " ++ author ++
  "\n\nPLEASE KEEP ALL THE CONVERSATION ON GITHUB\n\n" ++ body ++ "\n"

/-- Instantiation of `gh_comment_body_template`. -/
def ghCommentBody (link : String) : String :=
  "\nThank you for reporting us your feedback!\n\nThe internal ticket has been created: " ++
  link ++ ".\n\n> This message was autogenerated\n"

def cfgMissingMsg : String := ".github/.jira_sync_config.yaml file was not found"

def cfgInvalidMsg : String := ".github/.jira_sync_config.yaml file is invalid. Check syntax."

def projectKeyMsg : String :=
  "Jira project key is not specified. Add `jira_project_key` key to the settings file."

def statusMappingMsg : String :=
  "Status mapping is not specified. Add `status_mapping` key to the settings file."

/-- The label gate of main.py lines 191-195: blocks when the allow-list is
non-empty and no lowered issue label is in the lowered allow-list. -/
def labelGateBlocks (s : Settings) (issueLabels : List String) : Bool :=
  let allowed := s.labels.map strLower
  let payloadLabels := issueLabels.map strLower
  !allowed.isEmpty && !payloadLabels.any (fun l => allowed.contains l)

/-- The issue-type scan loop body: walk the (already lowered) payload labels
in order, return the mapping value of the first label that is a key. -/
def scanLabels (mapping : List (String × String)) : List String → String
  | [] => "Bug"
  | l :: ls =>
    match lookupKey mapping l with
    | some t => t
    | none => scanLabels mapping ls

/-- main.py lines 214-219: `issue_type` starts as "Bug"; if the label
mapping is non-empty the first payload label found among its keys wins. -/
def computeIssueType (mapping : List (String × String)) (payloadLabels : List String) : String :=
  if mapping.isEmpty then "Bug" else scanLabels mapping payloadLabels

/-- main.py lines 230-237: components requested by settings, filtered to
the project's valid component names. -/
def mappedComponents (s : Settings) (projectComponents : List String) : List String :=
  s.components.filter (fun c => projectComponents.contains c)

/-- main.py lines 203-206: the issue body when `sync_description` is set,
rendered to Jira markup when non-empty. -/
def renderedIssueBody (env : Env) (s : Settings) : String :=
  let b := if s.sync_description then env.gh_issue.body else ""
  if b = "" then b else env.render b

/-- main.py lines 221-237: assembly of `issue_dict`. -/
def mkIssueDict (s : Settings) (gh : GhIssue) (renderedBody : String)
    (payloadLabels : List String) (projectComponents : List String) : IssueDict :=
  { project_key := s.jira_project_key
    summary := gh.title
    description := jiraIssueDescription gh.html_url gh.author_login renderedBody
    issuetype := computeIssueType s.label_mapping payloadLabels
    parent := if s.epic_key = "" then none else some s.epic_key
    components :=
      if s.components.isEmpty then none
      else some (mappedComponents s projectComponents) }

/-- The `jira.project_components` call happens iff `settings["components"]`
is non-empty (main.py line 230-231). -/
def componentEffects (s : Settings) : List Effect :=
  if s.components.isEmpty then [] else [Effect.jiraProjectComponents s.jira_project_key]

/-- main.py lines 267-277: comment synchronisation at the end of the
handler, applied to the first element of `existing_issues`. -/
def commentSyncEffects (env : Env) (p : Payload) (s : Settings) (a : String)
    (t : JiraTicket) : List Effect :=
  match p.comment with
  | some cb =>
    if s.sync_comments && a == "created" then
      [Effect.jiraAddComment t.key
        ("User *" ++ p.sender_login ++ "* commented:\n " ++ env.render cb)]
    else []
  | none => []

/-- main.py lines 242-277: the reconciler: create / close / reopen / edit
branch followed by comment sync; `d` is the assembled `issue_dict`. -/
def reconcile (env : Env) (p : Payload) (s : Settings) (sm : StatusMapping)
    (a : String) (d : IssueDict) : BotOutcome × List Effect :=
  match env.search_result with
  | [] =>
    if a == "closed" then (BotOutcome.ok, [])
    else
      let newT := env.created_ticket
      (BotOutcome.ok,
        [Effect.jiraCreate d] ++
        (if s.add_gh_comment then [Effect.createGhComment (ghCommentBody newT.permalink)]
         else []) ++
        commentSyncEffects env p s a newT)
  | t :: _ =>
    let branchEffs :=
      if a == "closed" then [Effect.jiraTransition t.key sm.closed]
      else if a == "reopened" then [Effect.jiraTransition t.key sm.opened]
      else if a == "edited" then
        let dEdit :=
          if s.components.isEmpty then d
          else { d with components := d.components.map (fun cs => cs ++ t.components) }
        [Effect.jiraUpdate t.key dEdit]
      else []
    (BotOutcome.ok, branchEffs ++ commentSyncEffects env p s a t)

/-- main.py lines 197-277: from the Jira search onwards (all gates passed). -/
def afterGates (env : Env) (p : Payload) (s : Settings) (sm : StatusMapping)
    (a : String) (payloadLabels : List String) : BotOutcome × List Effect :=
  let d := mkIssueDict s env.gh_issue (renderedIssueBody env s) payloadLabels
    env.project_components
  let r := reconcile env p s sm a d
  (r.1, Effect.jiraSearch s.jira_project_key env.gh_issue.html_url ::
        (componentEffects s ++ r.2))

/-- main.py lines 133-277: everything after the line-130 guard. -/
def botPostGuard (env : Env) (p : Payload) (a : String) : BotOutcome × List Effect :=
  if p.sender_login == env.bot_name then (BotOutcome.botIgnored, [])
  else if a == "deleted" || a == "unlabeled" then (BotOutcome.ok, [])
  else if a == "edited" && p.comment.isSome then (BotOutcome.ok, [])
  else
    match p.issue with
    | none => (BotOutcome.err (PyErr.keyError "issue"), [])
    | some iss =>
      match env.config with
      | ConfigFetch.missing => (BotOutcome.ok, [Effect.createGhComment cfgMissingMsg])
      | ConfigFetch.invalid => (BotOutcome.ok, [Effect.createGhComment cfgInvalidMsg])
      | ConfigFetch.parseError e => (BotOutcome.err (PyErr.yamlError e), [])
      | ConfigFetch.parsed s =>
        if s.jira_project_key = "" then (BotOutcome.ok, [Effect.createGhComment projectKeyMsg])
        else
          match s.status_mapping with
          | none => (BotOutcome.ok, [Effect.createGhComment statusMappingMsg])
          | some sm =>
            if labelGateBlocks s iss.labels then (BotOutcome.ok, [])
            else afterGates env p s sm a (iss.labels.map strLower)

/-- The whole `bot` handler (after signature verification): line 130 guard
first — `not all(k in payload for k in ["action", "issue"]) and
payload["action"] == "opened"` — note the guard itself reads
`payload["action"]`, so a payload without that key raises `KeyError`. -/
def bot (env : Env) (p : Payload) : BotOutcome × List Effect :=
  match p.action with
  | none => (BotOutcome.err (PyErr.keyError "action"), [])
  | some a =>
    match p.issue with
    | none => if a == "opened" then (BotOutcome.ok, []) else botPostGuard env p a
    | some _ => botPostGuard env p a

/-- Recognises the Jira ticket-creation call in an effect trace. -/
def isCreateEffect : Effect → Bool
  | Effect.jiraCreate _ => true
  | _ => false

/-- The component list carried by the first field-update call of a trace,
if any. -/
def updateComponentsOf : List Effect → Option (List String)
  | [] => none
  | Effect.jiraUpdate _ d :: _ => d.components
  | _ :: rest => updateComponentsOf rest

/-- The diagnostic message of a failing configuration, if the
configuration fails: file missing, YAML invalid, empty project key, or
empty status mapping (checked in the order the handler checks them). -/
def configFailMsg : ConfigFetch → Option String
  | ConfigFetch.missing => some cfgMissingMsg
  | ConfigFetch.invalid => some cfgInvalidMsg
  | ConfigFetch.parseError _ => none
  | ConfigFetch.parsed s =>
    if s.jira_project_key = "" then some projectKeyMsg
    else
      match s.status_mapping with
      | none => some statusMappingMsg
      | some _ => none

/-- The specification's reading of the issue-type rule: the mapped value of
the first payload label that is a key of the mapping, defaulting to "Bug". -/
def issueTypeSpec (mapping : List (String × String)) (payloadLabels : List String) : String :=
  match payloadLabels.find? (fun l => (lookupKey mapping l).isSome) with
  | some l => (lookupKey mapping l).getD "Bug"
  | none => "Bug"

/-! Concrete fixtures used to instantiate the claim theorems. -/

/-- A GitHub issue fixture. -/
def ghFix : GhIssue :=
  { html_url := "http://gh/i/1", title := "T", body := "B", author_login := "alice" }

/-- An already-existing Jira ticket fixture, carrying component "X". -/
def ticketFix : JiraTicket :=
  { key := "PROJ-1", components := ["X"], permalink := "http://jira/PROJ-1" }

/-- The ticket the Jira create call returns in the fixtures. -/
def createdFix : JiraTicket :=
  { key := "PROJ-9", components := [], permalink := "http://jira/PROJ-9" }

/-- Settings fixture for the second-delivery scenario of claim C1. -/
def sC1 : Settings :=
  { jira_project_key := "PROJ", status_mapping := some { opened := "To Do", closed := "Done" }
    labels := [], label_mapping := [], sync_description := false, epic_key := ""
    components := [], add_gh_comment := true, sync_comments := false }

/-- Environment for C1: the marker search already finds the first ticket. -/
def envC1 : Env :=
  { bot_name := "syncbot", config := ConfigFetch.parsed sC1, gh_issue := ghFix
    search_result := [ticketFix], project_components := [], render := fun s => s
    created_ticket := createdFix }

/-- A replayed `opened` delivery for C1. -/
def pC1 : Payload :=
  { action := some "opened", issue := some { number := 1, labels := [] }
    sender_login := "alice", comment := none, repo_owner := "o", repo_name := "r" }

/-- Settings fixture for C2: one desired component "X". -/
def sC2 : Settings :=
  { jira_project_key := "PROJ", status_mapping := some { opened := "To Do", closed := "Done" }
    labels := [], label_mapping := [], sync_description := false, epic_key := ""
    components := ["X"], add_gh_comment := false, sync_comments := false }

/-- Environment for C2: the existing ticket already carries component "X",
and "X" is also a valid project component. -/
def envC2 : Env :=
  { bot_name := "syncbot", config := ConfigFetch.parsed sC2, gh_issue := ghFix
    search_result := [ticketFix], project_components := ["X"], render := fun s => s
    created_ticket := createdFix }

/-- An `edited` delivery for C2. -/
def pC2 : Payload :=
  { action := some "edited", issue := some { number := 1, labels := [] }
    sender_login := "alice", comment := none, repo_owner := "o", repo_name := "r" }

/-- Environment for C3 (its config never matters: the guard fires first). -/
def envC3 : Env :=
  { bot_name := "syncbot", config := ConfigFetch.missing, gh_issue := ghFix
    search_result := [], project_components := [], render := fun s => s
    created_ticket := createdFix }

/-- A payload whose `action` key is absent (but `issue` present), for C3. -/
def pC3a : Payload :=
  { action := none, issue := some { number := 1, labels := [] }
    sender_login := "alice", comment := none, repo_owner := "o", repo_name := "r" }

/-- A payload claiming `opened` whose `issue` key is absent, for C3. -/
def pC3b : Payload :=
  { action := some "opened", issue := none
    sender_login := "alice", comment := none, repo_owner := "o", repo_name := "r" }

/-- Settings fixture for C4: non-empty desired components. -/
def sC4 : Settings :=
  { jira_project_key := "PROJ", status_mapping := some { opened := "To Do", closed := "Done" }
    labels := [], label_mapping := [], sync_description := false, epic_key := ""
    components := ["X"], add_gh_comment := false, sync_comments := false }

/-- Environment for C4: the marker search finds nothing. -/
def envC4 : Env :=
  { bot_name := "syncbot", config := ConfigFetch.parsed sC4, gh_issue := ghFix
    search_result := [], project_components := ["X"], render := fun s => s
    created_ticket := createdFix }

/-- A `closed` delivery for C4. -/
def pC4 : Payload :=
  { action := some "closed", issue := some { number := 1, labels := [] }
    sender_login := "alice", comment := none, repo_owner := "o", repo_name := "r" }

/-- Environment for C5: the config file is missing. -/
def envC5 : Env :=
  { bot_name := "syncbot", config := ConfigFetch.missing, gh_issue := ghFix
    search_result := [], project_components := [], render := fun s => s
    created_ticket := createdFix }

/-- Environment for the C5 counterexample: the config file exists but
fails to parse with a YAML error that is not a ScannerError (for example
`yaml.parser.ParserError`, raised by a document like "a: b" followed by
"- c"). -/
def envC5p : Env :=
  { bot_name := "syncbot", config := ConfigFetch.parseError "ParserError", gh_issue := ghFix
    search_result := [], project_components := [], render := fun s => s
    created_ticket := createdFix }

/-- An `opened` delivery for C5. -/
def pC5 : Payload :=
  { action := some "opened", issue := some { number := 1, labels := [] }
    sender_login := "alice", comment := none, repo_owner := "o", repo_name := "r" }

/-- Concrete dictionaries for the C6 witness:
`a = {"settings": {"x": "1"}}`, `b = {"settings": {"x": "2", "y": "3"}}`. -/
def dC6a : JDict :=
  .cons "settings" (JVal.obj (.cons "x" (JVal.atom "1") .nil)) .nil

/-- Second dictionary of the C6 witness. -/
def dC6b : JDict :=
  .cons "settings" (JVal.obj (.cons "x" (JVal.atom "2") (.cons "y" (JVal.atom "3") .nil))) .nil

/-- Settings fixture for C7: allow-list `{"c"}`. -/
def sC7 : Settings :=
  { jira_project_key := "PROJ", status_mapping := some { opened := "To Do", closed := "Done" }
    labels := ["c"], label_mapping := [], sync_description := false, epic_key := ""
    components := [], add_gh_comment := false, sync_comments := false }

/-- Environment for C7. -/
def envC7 : Env :=
  { bot_name := "syncbot", config := ConfigFetch.parsed sC7, gh_issue := ghFix
    search_result := [], project_components := [], render := fun s => s
    created_ticket := createdFix }

/-- An `opened` delivery whose issue is labeled `{"a", "b"}`, for C7. -/
def pC7 : Payload :=
  { action := some "opened", issue := some { number := 1, labels := ["a", "b"] }
    sender_login := "alice", comment := none, repo_owner := "o", repo_name := "r" }

/-- Settings fixture for the empty-allow-list part of C7. -/
def sC7e : Settings :=
  { jira_project_key := "PROJ", status_mapping := some { opened := "To Do", closed := "Done" }
    labels := [], label_mapping := [], sync_description := false, epic_key := ""
    components := [], add_gh_comment := false, sync_comments := false }

/-- Environment for the empty-allow-list part of C7. -/
def envC7e : Env :=
  { bot_name := "syncbot", config := ConfigFetch.parsed sC7e, gh_issue := ghFix
    search_result := [], project_components := [], render := fun s => s
    created_ticket := createdFix }

/-- Settings fixture for C9: comment sync enabled. -/
def sC9 : Settings :=
  { jira_project_key := "PROJ", status_mapping := some { opened := "To Do", closed := "Done" }
    labels := [], label_mapping := [], sync_description := false, epic_key := ""
    components := [], add_gh_comment := false, sync_comments := true }

/-- Environment for C9: the marker search finds nothing. -/
def envC9 : Env :=
  { bot_name := "syncbot", config := ConfigFetch.parsed sC9, gh_issue := ghFix
    search_result := [], project_components := [], render := fun s => s
    created_ticket := createdFix }

/-- A `created` (new comment) delivery for C9. -/
def pC9 : Payload :=
  { action := some "created", issue := some { number := 1, labels := [] }
    sender_login := "alice", comment := some "LGTM", repo_owner := "o", repo_name := "r" }

/-! ## Lemmas about `merge_dicts` (claim C6) -/

theorem merge_dicts_nil (d1 : JDict) : merge_dicts d1 .nil = d1 := rfl

theorem merge_dicts_cons (d1 : JDict) (k : String) (v : JVal) (rest : JDict) :
    merge_dicts d1 (.cons k v rest) = merge_dicts (mstep d1 k v) rest := rfl

theorem append_nil : ∀ d : JDict, d.append .nil = d
  | .nil => rfl
  | .cons k v t => by rw [JDict.append, append_nil t]

theorem append_assoc : ∀ a b c : JDict, (a.append b).append c = a.append (b.append c)
  | .nil, _, _ => rfl
  | .cons k v t, b, c => by rw [JDict.append, JDict.append, JDict.append, append_assoc t b c]

theorem lookupKey_append : ∀ (d1 d2 : JDict) (k : String),
    (d1.append d2).lookupKey k =
      (match d1.lookupKey k with
       | some v => some v
       | none => d2.lookupKey k)
  | .nil, d2, k => rfl
  | .cons k1 v1 t, d2, k => by
    by_cases h : k1 = k <;>
      simp [JDict.append, JDict.lookupKey, h, lookupKey_append t d2 k]

theorem lookupKey_setKey_self : ∀ (d : JDict) (k : String) (x : JVal) (u : JVal),
    d.lookupKey k = some u → (d.setKey k x).lookupKey k = some x
  | .cons k1 v1 t, k, x, u, h => by
    by_cases hk : k1 = k
    · simp [JDict.setKey, JDict.lookupKey, hk]
    · rw [JDict.lookupKey] at h
      rw [if_neg hk] at h
      simp only [JDict.setKey, if_neg hk, JDict.lookupKey, if_neg hk]
      exact lookupKey_setKey_self t k x u h

theorem lookupKey_setKey_other : ∀ (d : JDict) (k k1 : String) (x : JVal), k1 ≠ k →
    (d.setKey k x).lookupKey k1 = d.lookupKey k1
  | .nil, _, _, _, _ => rfl
  | .cons k2 v2 t, k, k1, x, h => by
    by_cases hk : k2 = k
    · subst hk
      have hne : ¬ k2 = k1 := fun hh => h (Eq.symm hh)
      simp [JDict.setKey, JDict.lookupKey, hne]
    · simp only [JDict.setKey, if_neg hk, JDict.lookupKey]
      rw [lookupKey_setKey_other t k k1 x h]

theorem setKey_eq_of_lookup : ∀ (d : JDict) (k : String) (x : JVal),
    d.lookupKey k = some x → d.setKey k x = d
  | .cons k1 v1 t, k, x, h => by
    by_cases hk : k1 = k
    · subst hk
      rw [JDict.lookupKey, if_pos rfl] at h
      cases h
      rw [JDict.setKey, if_pos rfl]
    · rw [JDict.lookupKey, if_neg hk] at h
      rw [JDict.setKey, if_neg hk, setKey_eq_of_lookup t k x h]

theorem lookupKey_mstep_self (d1 : JDict) (k : String) (v : JVal) :
    (mstep d1 k v).lookupKey k = some (mstepVal (d1.lookupKey k) v) := by
  cases v with
  | atom s =>
    cases h : d1.lookupKey k with
    | some u => simp [mstep, h, mstepVal]
    | none =>
      simp only [mstep, h, mstepVal]
      rw [lookupKey_append, h]
      simp [JDict.lookupKey]
  | obj m2 =>
    cases h : d1.lookupKey k with
    | some u =>
      cases u with
      | atom s => simp [mstep, h, mstepVal]
      | obj m1 =>
        simp only [mstep, h, mstepVal]
        exact lookupKey_setKey_self d1 k _ _ h
    | none =>
      simp only [mstep, h, mstepVal]
      rw [lookupKey_append, h]
      simp [JDict.lookupKey]

theorem lookupKey_mstep_other (d1 : JDict) (k k1 : String) (v : JVal) (h : k1 ≠ k) :
    (mstep d1 k v).lookupKey k1 = d1.lookupKey k1 := by
  have happ : (d1.append (.cons k v .nil)).lookupKey k1 = d1.lookupKey k1 := by
    have hne : ¬ k = k1 := fun hh => h (Eq.symm hh)
    rw [lookupKey_append]
    cases hd : d1.lookupKey k1 with
    | some u => rfl
    | none => simp [JDict.lookupKey, hne]
  cases v with
  | atom s =>
    cases hl : d1.lookupKey k with
    | some u => simp [mstep, hl]
    | none => simpa [mstep, hl] using happ
  | obj m2 =>
    cases hl : d1.lookupKey k with
    | some u =>
      cases u with
      | atom s => simp [mstep, hl]
      | obj m1 =>
        simp only [mstep, hl]
        exact lookupKey_setKey_other d1 k k1 _ h
    | none => simpa [mstep, hl] using happ

theorem lookupKey_merge_of_none : ∀ (rest : JDict) (a : JDict) (k : String),
    rest.lookupKey k = none → (merge_dicts a rest).lookupKey k = a.lookupKey k
  | .nil, a, k, _ => rfl
  | .cons k1 v1 t, a, k, h => by
    rw [JDict.lookupKey] at h
    by_cases hk : k1 = k
    · rw [if_pos hk] at h
      cases h
    · rw [if_neg hk] at h
      rw [merge_dicts_cons, lookupKey_merge_of_none t (mstep a k1 v1) k h,
        lookupKey_mstep_other a k1 k v1 (fun hh => hk hh.symm)]

theorem merge_eq_append : ∀ (d2 : JDict), wfKeys d2 = true → ∀ d1 : JDict,
    (∀ k1, (d2.lookupKey k1).isSome = true → d1.lookupKey k1 = none) →
    merge_dicts d1 d2 = d1.append d2
  | .nil, _, d1, _ => (append_nil d1).symm
  | .cons k v rest, hwf, d1, hdisj => by
    obtain ⟨hkn, hv, hrest⟩ :
        (rest.lookupKey k).isNone = true ∧ wfVal v = true ∧ wfKeys rest = true := by
      simpa [wfKeys, Bool.and_assoc] using hwf
    have hkrest : rest.lookupKey k = none := Option.isNone_iff_eq_none.mp hkn
    have hd1k : d1.lookupKey k = none := by
      apply hdisj
      simp [JDict.lookupKey]
    have hstep : mstep d1 k v = d1.append (.cons k v .nil) := by
      cases v <;> simp [mstep, hd1k]
    rw [merge_dicts_cons, hstep,
      merge_eq_append rest hrest (d1.append (.cons k v .nil)) ?_,
      append_assoc]
    · rfl
    · intro k1 h1
      have hk1 : k1 ≠ k := by
        intro heq
        subst heq
        rw [hkrest] at h1
        cases h1
      have hne : ¬ k = k1 := fun hh => hk1 (Eq.symm hh)
      rw [lookupKey_append, hdisj k1 ?_]
      · simp [JDict.lookupKey, hne]
      · rw [JDict.lookupKey, if_neg hne]
        exact h1

theorem merge_nil_left (d2 : JDict) (hwf : wfKeys d2 = true) :
    merge_dicts .nil d2 = d2 := by
  rw [merge_eq_append d2 hwf .nil (fun _ _ => rfl)]
  rfl

theorem merge_idem_aux : ∀ (a b : JDict), wfKeys b = true →
    merge_dicts (merge_dicts a b) b = merge_dicts a b
  | _, .nil, _ => rfl
  | a, .cons k v rest, hb => by
    obtain ⟨hkn, hv, hrest⟩ :
        (rest.lookupKey k).isNone = true ∧ wfVal v = true ∧ wfKeys rest = true := by
      simpa [wfKeys, Bool.and_assoc] using hb
    have hkrest : rest.lookupKey k = none := Option.isNone_iff_eq_none.mp hkn
    have hM : ∀ M : JDict, M.lookupKey k = some (mstepVal (a.lookupKey k) v) →
        mstep M k v = M := by
      intro M hlookM
      cases v with
      | atom s => simp [mstep, hlookM]
      | obj m2 =>
        have hwfm2 : wfKeys m2 = true := by simpa [wfVal] using hv
        cases hla : a.lookupKey k with
        | none =>
          rw [hla] at hlookM
          simp only [mstepVal] at hlookM
          have hm2 : merge_dicts m2 m2 = m2 := by
            have h0 := merge_idem_aux .nil m2 hwfm2
            rwa [merge_nil_left m2 hwfm2] at h0
          simp only [mstep, hlookM, hm2]
          exact setKey_eq_of_lookup M k _ hlookM
        | some u =>
          cases u with
          | atom s =>
            rw [hla] at hlookM
            simp only [mstepVal] at hlookM
            simp [mstep, hlookM]
          | obj m1 =>
            rw [hla] at hlookM
            simp only [mstepVal] at hlookM
            have hidem := merge_idem_aux m1 m2 hwfm2
            simp only [mstep, hlookM, hidem]
            exact setKey_eq_of_lookup M k _ hlookM
    have hlook : (merge_dicts (mstep a k v) rest).lookupKey k
        = some (mstepVal (a.lookupKey k) v) := by
      rw [lookupKey_merge_of_none rest (mstep a k v) k hkrest, lookupKey_mstep_self]
    rw [merge_dicts_cons a k v rest, merge_dicts_cons (merge_dicts (mstep a k v) rest) k v rest,
      hM (merge_dicts (mstep a k v) rest) hlook]
    exact merge_idem_aux (mstep a k v) rest hrest
termination_by _a b _ => sizeOf b

/-- C6: merging a settings mapping `b` into the result of merging `b` into
`a` changes nothing: `merge(merge(a, b), b) = merge(a, b)` for all
dictionaries (with `b` a well-formed dictionary, i.e. duplicate-free keys,
as every Python dict is). -/
theorem C6_merge_idempotent (a b : JDict) (hb : wfKeys b = true) :
    merge_dicts (merge_dicts a b) b = merge_dicts a b :=
  merge_idem_aux a b hb

/-- Witness for C6 at concrete dictionaries. -/
theorem C6_merge_idempotent_witness :
    wfKeys dC6b = true ∧
    merge_dicts (merge_dicts dC6a dC6b) dC6b = merge_dicts dC6a dC6b :=
  ⟨by decide, C6_merge_idempotent dC6a dC6b (by decide)⟩

/-! ## Navigation lemmas for the `bot` pipeline -/

theorem bot_eq_guard (env : Env) (p : Payload) (a : String) (iss : PIssue)
    (ha : p.action = some a) (hi : p.issue = some iss) :
    bot env p = botPostGuard env p a := by
  simp only [bot, ha, hi]

theorem postGuard_eq_afterGates (env : Env) (p : Payload) (a : String) (iss : PIssue)
    (s : Settings) (sm : StatusMapping)
    (hs : (p.sender_login == env.bot_name) = false)
    (hd : (a == "deleted" || a == "unlabeled") = false)
    (he : (a == "edited" && p.comment.isSome) = false)
    (hi : p.issue = some iss)
    (hc : env.config = ConfigFetch.parsed s)
    (hk : ¬ s.jira_project_key = "")
    (hsm : s.status_mapping = some sm)
    (hg : labelGateBlocks s iss.labels = false) :
    botPostGuard env p a = afterGates env p s sm a (iss.labels.map strLower) := by
  simp only [botPostGuard, hs, hd, he, hi, hc, hsm, hg, if_neg hk]
  rfl

theorem postGuard_configFail (env : Env) (p : Payload) (a : String) (iss : PIssue) (m : String)
    (hs : (p.sender_login == env.bot_name) = false)
    (hd : (a == "deleted" || a == "unlabeled") = false)
    (he : (a == "edited" && p.comment.isSome) = false)
    (hi : p.issue = some iss)
    (hm : configFailMsg env.config = some m) :
    botPostGuard env p a = (BotOutcome.ok, [Effect.createGhComment m]) := by
  cases hc : env.config with
  | missing =>
    rw [hc] at hm
    cases hm
    simp [botPostGuard, hs, hd, he, hi, hc]
  | invalid =>
    rw [hc] at hm
    cases hm
    simp [botPostGuard, hs, hd, he, hi, hc]
  | parseError e =>
    rw [hc] at hm
    simp [configFailMsg] at hm
  | parsed s =>
    rw [hc] at hm
    simp only [configFailMsg] at hm
    by_cases hk : s.jira_project_key = ""
    · rw [if_pos hk] at hm
      cases hm
      simp [botPostGuard, hs, hd, he, hi, hc, hk]
    · rw [if_neg hk] at hm
      cases hsm : s.status_mapping with
      | none =>
        rw [hsm] at hm
        cases hm
        simp [botPostGuard, hs, hd, he, hi, hc, hk, hsm]
      | some sm =>
        rw [hsm] at hm
        cases hm

theorem commentSync_noCreate (env : Env) (p : Payload) (s : Settings) (a : String)
    (t : JiraTicket) :
    (commentSyncEffects env p s a t).all (fun e => !isCreateEffect e) = true := by
  cases hpc : p.comment with
  | none => simp [commentSyncEffects, hpc]
  | some cb =>
    simp only [commentSyncEffects, hpc]
    split_ifs <;> rfl

theorem componentEffects_noCreate (s : Settings) :
    (componentEffects s).all (fun e => !isCreateEffect e) = true := by
  unfold componentEffects
  split
  · rfl
  · rfl

theorem reconcile_noCreate (env : Env) (p : Payload) (s : Settings) (sm : StatusMapping)
    (a : String) (d : IssueDict) (hne : env.search_result ≠ []) :
    ((reconcile env p s sm a d).2.all (fun e => !isCreateEffect e)) = true := by
  cases hsr : env.search_result with
  | nil => exact absurd hsr hne
  | cons t ts =>
    simp only [reconcile, hsr, List.all_append]
    rw [commentSync_noCreate env p s a t]
    simp only [Bool.and_true]
    split_ifs <;> rfl

theorem afterGates_noCreate (env : Env) (p : Payload) (s : Settings) (sm : StatusMapping)
    (a : String) (pl : List String) (hne : env.search_result ≠ []) :
    ((afterGates env p s sm a pl).2.all (fun e => !isCreateEffect e)) = true := by
  unfold afterGates
  simp only [List.all_cons, List.all_append]
  rw [componentEffects_noCreate s, reconcile_noCreate env p s sm a _ hne]
  rfl

theorem botPostGuard_noCreate (env : Env) (p : Payload) (a : String)
    (hne : env.search_result ≠ []) :
    ((botPostGuard env p a).2.all (fun e => !isCreateEffect e)) = true := by
  by_cases h1 : (p.sender_login == env.bot_name) = true
  · simp [botPostGuard, h1]
  · rw [Bool.not_eq_true] at h1
    by_cases h2 : (a == "deleted" || a == "unlabeled") = true
    · simp [botPostGuard, h1, h2]
    · rw [Bool.not_eq_true] at h2
      by_cases h3 : (a == "edited" && p.comment.isSome) = true
      · simp [botPostGuard, h1, h2, h3]
      · rw [Bool.not_eq_true] at h3
        cases hpi : p.issue with
        | none => simp [botPostGuard, h1, h2, h3, hpi]
        | some iss =>
          cases hcfg : env.config with
          | missing => simp [botPostGuard, h1, h2, h3, hpi, hcfg, isCreateEffect]
          | invalid => simp [botPostGuard, h1, h2, h3, hpi, hcfg, isCreateEffect]
          | parseError e => simp [botPostGuard, h1, h2, h3, hpi, hcfg]
          | parsed s =>
            by_cases hk : s.jira_project_key = ""
            · simp [botPostGuard, h1, h2, h3, hpi, hcfg, hk, isCreateEffect]
            · cases hsm : s.status_mapping with
              | none =>
                simp [botPostGuard, h1, h2, h3, hpi, hcfg, hk, hsm, isCreateEffect]
              | some sm =>
                by_cases hg : labelGateBlocks s iss.labels = true
                · simp [botPostGuard, h1, h2, h3, hpi, hcfg, hk, hsm, hg]
                · rw [Bool.not_eq_true] at hg
                  rw [postGuard_eq_afterGates env p a iss s sm h1 h2 h3 hpi hcfg hk hsm hg]
                  exact afterGates_noCreate env p s sm a _ hne

theorem bot_noCreate (env : Env) (p : Payload) (hne : env.search_result ≠ []) :
    ((bot env p).2.all (fun e => !isCreateEffect e)) = true := by
  cases hpa : p.action with
  | none => simp [bot, hpa]
  | some a =>
    cases hpi : p.issue with
    | none =>
      by_cases ho : (a == "opened") = true
      · simp [bot, hpa, hpi, ho]
      · rw [Bool.not_eq_true] at ho
        have hb : bot env p = botPostGuard env p a := by simp [bot, hpa, hpi, ho]
        rw [hb]
        exact botPostGuard_noCreate env p a hne
    | some iss =>
      rw [bot_eq_guard env p a iss hpa hpi]
      exact botPostGuard_noCreate env p a hne

theorem afterGates_closed_noticket (env : Env) (p : Payload) (s : Settings)
    (sm : StatusMapping) (pl : List String) (hsr : env.search_result = []) :
    afterGates env p s sm "closed" pl =
      (BotOutcome.ok,
        Effect.jiraSearch s.jira_project_key env.gh_issue.html_url :: componentEffects s) := by
  simp [afterGates, reconcile, hsr]

theorem afterGates_edited (env : Env) (p : Payload) (s : Settings) (sm : StatusMapping)
    (pl : List String) (t : JiraTicket) (ts : List JiraTicket) (c : String) (cs : List String)
    (hsr : env.search_result = t :: ts) (hcomp : s.components = c :: cs) :
    afterGates env p s sm "edited" pl =
      (BotOutcome.ok,
        [Effect.jiraSearch s.jira_project_key env.gh_issue.html_url,
         Effect.jiraProjectComponents s.jira_project_key,
         Effect.jiraUpdate t.key
           { mkIssueDict s env.gh_issue (renderedIssueBody env s) pl env.project_components with
             components := some (mappedComponents s env.project_components ++ t.components) }]) := by
  cases hpc : p.comment with
  | none =>
    simp [afterGates, reconcile, hsr, commentSyncEffects, componentEffects, hcomp,
      mkIssueDict, hpc]
  | some cb =>
    simp [afterGates, reconcile, hsr, commentSyncEffects, componentEffects, hcomp,
      mkIssueDict, hpc]

theorem afterGates_created_noticket (env : Env) (p : Payload) (s : Settings)
    (sm : StatusMapping) (pl : List String) (cb : String)
    (hsr : env.search_result = []) (hpc : p.comment = some cb)
    (hsync : s.sync_comments = true) :
    afterGates env p s sm "created" pl =
      (BotOutcome.ok,
        Effect.jiraSearch s.jira_project_key env.gh_issue.html_url ::
        componentEffects s ++
        [Effect.jiraCreate
          (mkIssueDict s env.gh_issue (renderedIssueBody env s) pl env.project_components)] ++
        (if s.add_gh_comment then
          [Effect.createGhComment (ghCommentBody env.created_ticket.permalink)]
         else []) ++
        [Effect.jiraAddComment env.created_ticket.key
          ("User *" ++ p.sender_login ++ "* commented:\n " ++ env.render cb)]) := by
  simp [afterGates, reconcile, hsr, commentSyncEffects, hpc, hsync]

/-! ## Claim theorems -/

/-- C1: idempotent ticket creation — when an `opened` webhook is delivered
a second time and the marker search already reports the ticket made by the
first delivery (a non-empty search result), the handler never issues a
ticket-creation call: the reconciler takes the existing-ticket (update)
branch, so no second ticket is created. -/
theorem C1_opened_replay_never_creates (env : Env) (p : Payload)
    (_hopen : p.action = some "opened") (hne : env.search_result ≠ []) :
    ((bot env p).2.all (fun e => !isCreateEffect e)) = true :=
  bot_noCreate env p hne

/-- Witness for C1: a concrete replayed `opened` delivery. -/
theorem C1_opened_replay_never_creates_witness :
    pC1.action = some "opened" ∧ envC1.search_result ≠ [] ∧
    ((bot envC1 pC1).2.all (fun e => !isCreateEffect e)) = true :=
  ⟨rfl, by decide, C1_opened_replay_never_creates envC1 pC1 rfl (by decide)⟩

/-- C2 counterexample: on an `edited` event where the existing ticket
already carries component "X" and the mapped set is also exactly "X"
(settings request "X", the project has "X"), the update call sends the
component list ["X", "X"] — a duplicate name, contradicting "union by
name, no duplicates". -/
theorem C2_duplicate_component_cex :
    updateComponentsOf (bot envC2 pC2).2 = some ["X", "X"] ∧
    ¬ (["X", "X"] : List String).Nodup := by
  constructor
  · decide
  · decide

/-- C2 amended: on an `edited` event with an existing ticket and non-empty
`settings.components`, the update call's component list is the newly mapped
components followed by all of the existing ticket's components — a plain
concatenation that can repeat a name when the mapped set already contains
one of the existing component names; all other fields are overwritten. -/
theorem C2_edited_components_append (env : Env) (p : Payload) (iss : PIssue)
    (s : Settings) (sm : StatusMapping) (t : JiraTicket) (ts : List JiraTicket)
    (c : String) (cs : List String)
    (ha : p.action = some "edited")
    (hnc : p.comment = none)
    (hsend : p.sender_login ≠ env.bot_name)
    (hi : p.issue = some iss)
    (hc : env.config = ConfigFetch.parsed s)
    (hk : s.jira_project_key ≠ "")
    (hsm : s.status_mapping = some sm)
    (hg : labelGateBlocks s iss.labels = false)
    (hcomp : s.components = c :: cs)
    (hsr : env.search_result = t :: ts) :
    bot env p =
      (BotOutcome.ok,
        [Effect.jiraSearch s.jira_project_key env.gh_issue.html_url,
         Effect.jiraProjectComponents s.jira_project_key,
         Effect.jiraUpdate t.key
           { mkIssueDict s env.gh_issue (renderedIssueBody env s)
               (iss.labels.map strLower) env.project_components with
             components :=
               some (mappedComponents s env.project_components ++ t.components) }]) := by
  rw [bot_eq_guard env p "edited" iss ha hi,
    postGuard_eq_afterGates env p "edited" iss s sm
      (beq_eq_false_iff_ne.mpr hsend) (by decide) (by simp [hnc]) hi hc hk hsm hg,
    afterGates_edited env p s sm _ t ts c cs hsr hcomp]

/-- Witness for the amended C2 at the concrete fixtures. -/
theorem C2_edited_components_append_witness :
    envC2.search_result = [ticketFix] ∧ sC2.components = ["X"] ∧
    bot envC2 pC2 =
      (BotOutcome.ok,
        [Effect.jiraSearch sC2.jira_project_key envC2.gh_issue.html_url,
         Effect.jiraProjectComponents sC2.jira_project_key,
         Effect.jiraUpdate ticketFix.key
           { mkIssueDict sC2 envC2.gh_issue (renderedIssueBody envC2 sC2)
               ((⟨1, []⟩ : PIssue).labels.map strLower) envC2.project_components with
             components :=
               some (mappedComponents sC2 envC2.project_components ++
                 ticketFix.components) }]) :=
  ⟨rfl, rfl,
    C2_edited_components_append envC2 pC2 ⟨1, []⟩ sC2
      { opened := "To Do", closed := "Done" } ticketFix [] "X" []
      rfl rfl (by decide) rfl rfl (by decide) rfl (by decide) rfl rfl⟩

/-- C3 counterexample: a payload whose `action` key is absent (with `issue`
present) makes the handler raise `KeyError("action")` from the guard's
`payload["action"]` access — it does not return normally. -/
theorem C3_missing_action_raises_cex :
    bot envC3 pC3a = (BotOutcome.err (PyErr.keyError "action"), []) := rfl

/-- C3 amended: the guard is fail-closed only in one direction — a payload
with `action = "opened"` and no `issue` key is ignored (returns normally
with no effects), but a payload missing the `action` key raises
`KeyError("action")` from the guard itself instead of being ignored. -/
theorem C3_guard_amended (env : Env) (p : Payload) :
    (p.action = none → bot env p = (BotOutcome.err (PyErr.keyError "action"), [])) ∧
    (p.action = some "opened" → p.issue = none → bot env p = (BotOutcome.ok, [])) := by
  constructor
  · intro h
    simp [bot, h]
  · intro h1 h2
    simp [bot, h1, h2]

/-- Witness for the amended C3: both guard behaviours at concrete payloads. -/
theorem C3_guard_amended_witness :
    bot envC3 pC3a = (BotOutcome.err (PyErr.keyError "action"), []) ∧
    bot envC3 pC3b = (BotOutcome.ok, []) :=
  ⟨(C3_guard_amended envC3 pC3a).1 rfl, (C3_guard_amended envC3 pC3b).2 rfl rfl⟩

/-- C4 counterexample: a `closed` event with no existing ticket and
non-empty `settings.components` does make a ticket-system call — the
component-listing call `jira.project_components`, issued by the field
mapper before the reconciler's early return. -/
theorem C4_component_listing_cex :
    bot envC4 pC4 =
      (BotOutcome.ok,
        [Effect.jiraSearch "PROJ" "http://gh/i/1",
         Effect.jiraProjectComponents "PROJ"]) ∧
    Effect.jiraProjectComponents "PROJ" ∈ (bot envC4 pC4).2 := by
  constructor
  · decide
  · decide

/-- C4 amended: a `closed` event for which the marker search finds no
ticket ends with outcome ok and produces no create, transition, update or
comment call — the whole trace is the marker search plus, when
`settings.components` is non-empty, the component-listing call (which runs
before the reconciler). No ticket is ever created. -/
theorem C4_closed_no_ticket_amended (env : Env) (p : Payload) (iss : PIssue)
    (s : Settings) (sm : StatusMapping)
    (ha : p.action = some "closed")
    (hi : p.issue = some iss)
    (hsend : p.sender_login ≠ env.bot_name)
    (hc : env.config = ConfigFetch.parsed s)
    (hk : s.jira_project_key ≠ "")
    (hsm : s.status_mapping = some sm)
    (hg : labelGateBlocks s iss.labels = false)
    (hsr : env.search_result = []) :
    bot env p =
      (BotOutcome.ok,
        Effect.jiraSearch s.jira_project_key env.gh_issue.html_url ::
          componentEffects s) := by
  rw [bot_eq_guard env p "closed" iss ha hi,
    postGuard_eq_afterGates env p "closed" iss s sm
      (beq_eq_false_iff_ne.mpr hsend) (by decide) (by simp) hi hc hk hsm hg,
    afterGates_closed_noticket env p s sm _ hsr]

/-- Witness for the amended C4 at the concrete fixtures. -/
theorem C4_closed_no_ticket_amended_witness :
    envC4.search_result = [] ∧
    bot envC4 pC4 =
      (BotOutcome.ok,
        Effect.jiraSearch sC4.jira_project_key envC4.gh_issue.html_url ::
          componentEffects sC4) :=
  ⟨rfl,
    C4_closed_no_ticket_amended envC4 pC4 ⟨1, []⟩ sC4
      { opened := "To Do", closed := "Done" }
      rfl rfl (by decide) rfl (by decide) rfl (by decide) rfl⟩

/-- C5 counterexample: an `opened` event whose config file fails to parse
with a YAML error other than `ScannerError` (here a ParserError) makes the
handler propagate the exception to the caller, with no diagnostic comment
posted — "config fails to parse, no exception propagates" is false. -/
theorem C5_uncaught_parse_error_cex :
    bot envC5p pC5 = (BotOutcome.err (PyErr.yamlError "ParserError"), []) := rfl

/-- C5 amended: the UserFixable configuration failures are exactly those
the handler catches — config file missing, YAML that fails scanning
(`ScannerError`), empty `jira_project_key`, or empty `status_mapping`: for
these no exception propagates, exactly one diagnostic comment is posted,
processing stops with a neutral outcome and no ticket-system call is made.
A config that fails to parse with any other YAML error is not caught: the
exception propagates to the caller and no diagnostic comment is posted
(still no ticket-system call is made). -/
theorem C5_userfixable_config_failures_amended (env : Env) (p : Payload) (a : String)
    (iss : PIssue)
    (ha : p.action = some a)
    (hi : p.issue = some iss)
    (hsend : p.sender_login ≠ env.bot_name)
    (hd : a ≠ "deleted")
    (hu : a ≠ "unlabeled")
    (he : ¬ (a = "edited" ∧ p.comment.isSome = true)) :
    (∀ m, configFailMsg env.config = some m →
      bot env p = (BotOutcome.ok, [Effect.createGhComment m])) ∧
    (∀ e, env.config = ConfigFetch.parseError e →
      bot env p = (BotOutcome.err (PyErr.yamlError e), [])) := by
  have hsb : (p.sender_login == env.bot_name) = false := beq_eq_false_iff_ne.mpr hsend
  have hdb : (a == "deleted" || a == "unlabeled") = false := by simp [hd, hu]
  have heb : (a == "edited" && p.comment.isSome) = false := by
    by_cases hae : a = "edited"
    · subst hae
      cases hx : p.comment.isSome with
      | false => simp [hx]
      | true => exact absurd ⟨rfl, hx⟩ he
    · simp [hae]
  constructor
  · intro m hm
    rw [bot_eq_guard env p a iss ha hi]
    exact postGuard_configFail env p a iss m hsb hdb heb hi hm
  · intro e hce
    rw [bot_eq_guard env p a iss ha hi]
    simp [botPostGuard, hsb, hdb, heb, hi, hce]

/-- Witness for the amended C5: a missing config posts exactly the
diagnostic, and a non-Scanner parse failure propagates with no comment. -/
theorem C5_userfixable_config_failures_amended_witness :
    configFailMsg envC5.config = some cfgMissingMsg ∧
    bot envC5 pC5 = (BotOutcome.ok, [Effect.createGhComment cfgMissingMsg]) ∧
    envC5p.config = ConfigFetch.parseError "ParserError" ∧
    bot envC5p pC5 = (BotOutcome.err (PyErr.yamlError "ParserError"), []) :=
  ⟨rfl,
   (C5_userfixable_config_failures_amended envC5 pC5 "opened" ⟨1, []⟩
      rfl rfl (by decide) (by decide) (by decide) (by decide)).1 cfgMissingMsg rfl,
   rfl,
   (C5_userfixable_config_failures_amended envC5p pC5 "opened" ⟨1, []⟩
      rfl rfl (by decide) (by decide) (by decide) (by decide)).2 "ParserError" rfl⟩

theorem postGuard_gateBlocked (env : Env) (p : Payload) (a : String) (iss : PIssue)
    (s : Settings) (sm : StatusMapping)
    (hs : (p.sender_login == env.bot_name) = false)
    (hd : (a == "deleted" || a == "unlabeled") = false)
    (he : (a == "edited" && p.comment.isSome) = false)
    (hi : p.issue = some iss)
    (hc : env.config = ConfigFetch.parsed s)
    (hk : ¬ s.jira_project_key = "")
    (hsm : s.status_mapping = some sm)
    (hg : labelGateBlocks s iss.labels = true) :
    botPostGuard env p a = (BotOutcome.ok, []) := by
  simp [botPostGuard, hs, hd, he, hi, hc, hsm, hg, hk]

/-- C7: label gating — under the pre-gate conditions, (i) if the allow-list
`settings.labels` is non-empty and no issue label agrees with an allowed
label after lowering, the handler is a no-op with an empty effect trace;
(ii) if the allow-list is empty, the label gate never blocks. -/
theorem C7_label_gating (env : Env) (p : Payload) (a : String) (iss : PIssue)
    (s : Settings) (sm : StatusMapping)
    (ha : p.action = some a)
    (hi : p.issue = some iss)
    (hsend : p.sender_login ≠ env.bot_name)
    (hd : a ≠ "deleted")
    (hu : a ≠ "unlabeled")
    (he : ¬ (a = "edited" ∧ p.comment.isSome = true))
    (hc : env.config = ConfigFetch.parsed s)
    (hk : s.jira_project_key ≠ "")
    (hsm : s.status_mapping = some sm) :
    (s.labels ≠ [] →
      (∀ l ∈ iss.labels, ∀ al ∈ s.labels, strLower l ≠ strLower al) →
      bot env p = (BotOutcome.ok, [])) ∧
    (s.labels = [] → labelGateBlocks s iss.labels = false) := by
  constructor
  · intro hne hnm
    have hblock : labelGateBlocks s iss.labels = true := by
      unfold labelGateBlocks
      rw [Bool.and_eq_true]
      constructor
      · cases hl : s.labels with
        | nil => exact absurd hl hne
        | cons x xs => simp [hl]
      · rw [Bool.not_eq_true', List.any_eq_false]
        intro l hl
        obtain ⟨l0, hl0, rfl⟩ := List.mem_map.mp hl
        simp only [Bool.not_eq_true]
        rw [← Bool.not_eq_true, List.contains_iff_exists_mem_beq]
        rintro ⟨al, hal, halb⟩
        obtain ⟨al0, hal0, rfl⟩ := List.mem_map.mp hal
        exact hnm l0 hl0 al0 hal0 (eq_of_beq halb)
    rw [bot_eq_guard env p a iss ha hi]
    apply postGuard_gateBlocked env p a iss s sm (beq_eq_false_iff_ne.mpr hsend)
      ?_ ?_ hi hc hk hsm hblock
    · simp [hd, hu]
    · by_cases hae : a = "edited"
      · subst hae
        cases hx : p.comment.isSome with
        | false => simp [hx]
        | true => exact absurd ⟨rfl, hx⟩ he
      · simp [hae]
  · intro hl
    simp [labelGateBlocks, hl]

/-- Witness for C7: blocked gate at labels a, b against allow-list c, and
never-blocking empty allow-list. -/
theorem C7_label_gating_witness :
    bot envC7 pC7 = (BotOutcome.ok, []) ∧
    labelGateBlocks sC7e ["a", "b"] = false :=
  ⟨(C7_label_gating envC7 pC7 "opened" ⟨1, ["a", "b"]⟩ sC7
      { opened := "To Do", closed := "Done" }
      rfl rfl (by decide) (by decide) (by decide) (by decide) rfl (by decide) rfl).1
      (by decide) (by decide),
   (C7_label_gating envC7e pC7 "opened" ⟨1, ["a", "b"]⟩ sC7e
      { opened := "To Do", closed := "Done" }
      rfl rfl (by decide) (by decide) (by decide) (by decide) rfl (by decide) rfl).2 rfl⟩

theorem scanLabels_nil_mapping : ∀ labels : List String, scanLabels [] labels = "Bug"
  | [] => rfl
  | _ :: ls => scanLabels_nil_mapping ls

theorem computeIssueType_eq_scan (mapping : List (String × String)) (labels : List String) :
    computeIssueType mapping labels = scanLabels mapping labels := by
  unfold computeIssueType
  split
  case isTrue h =>
    rw [List.isEmpty_iff.mp h, scanLabels_nil_mapping]
  case isFalse h => rfl

theorem scanLabels_eq_spec (mapping : List (String × String)) :
    ∀ labels : List String, scanLabels mapping labels = issueTypeSpec mapping labels := by
  intro labels
  induction labels with
  | nil => rfl
  | cons l ls ih =>
    rw [scanLabels]
    cases hl : lookupKey mapping l with
    | some t => simp [issueTypeSpec, List.find?, hl]
    | none =>
      rw [ih]
      simp [issueTypeSpec, List.find?, hl]

/-- C8: the ticket issue type is resolved by scanning the payload labels in
their given order and taking the mapped value of the first label that is a
key of the label mapping, with default "Bug" when nothing matches or the
mapping is empty — and on labels ["feature", "bug"] against the mapping
(bug to Bug, feature to Story) the result is "Story": label order wins, not
mapping order. -/
theorem C8_issue_type_rule :
    (∀ (mapping : List (String × String)) (labels : List String),
      computeIssueType mapping labels = issueTypeSpec mapping labels) ∧
    computeIssueType [("bug", "Bug"), ("feature", "Story")] ["feature", "bug"] = "Story" := by
  constructor
  · intro mapping labels
    rw [computeIssueType_eq_scan, scanLabels_eq_spec]
  · decide

/-- C9: a `created` (new comment) event that passes all gates and finds no
existing ticket takes the create path — the handler creates a ticket from
the mapped fields, optionally posts the link back, and (since
`sync_comments` is on) appends the rendered comment to the newly created
ticket, which is the first element of the match sequence. -/
theorem C9_created_creates_then_comments (env : Env) (p : Payload) (iss : PIssue)
    (s : Settings) (sm : StatusMapping) (cb : String)
    (ha : p.action = some "created")
    (hi : p.issue = some iss)
    (hpc : p.comment = some cb)
    (hsend : p.sender_login ≠ env.bot_name)
    (hc : env.config = ConfigFetch.parsed s)
    (hk : s.jira_project_key ≠ "")
    (hsm : s.status_mapping = some sm)
    (hg : labelGateBlocks s iss.labels = false)
    (hsr : env.search_result = [])
    (hsync : s.sync_comments = true) :
    bot env p =
      (BotOutcome.ok,
        Effect.jiraSearch s.jira_project_key env.gh_issue.html_url ::
        componentEffects s ++
        [Effect.jiraCreate
          (mkIssueDict s env.gh_issue (renderedIssueBody env s)
            (iss.labels.map strLower) env.project_components)] ++
        (if s.add_gh_comment then
          [Effect.createGhComment (ghCommentBody env.created_ticket.permalink)]
         else []) ++
        [Effect.jiraAddComment env.created_ticket.key
          ("User *" ++ p.sender_login ++ "* commented:\n " ++ env.render cb)]) := by
  rw [bot_eq_guard env p "created" iss ha hi,
    postGuard_eq_afterGates env p "created" iss s sm
      (beq_eq_false_iff_ne.mpr hsend) (by decide) (by simp) hi hc hk hsm hg,
    afterGates_created_noticket env p s sm _ cb hsr hpc hsync]

/-- Witness for C9 at the concrete fixtures. -/
theorem C9_created_creates_then_comments_witness :
    envC9.search_result = [] ∧ sC9.sync_comments = true ∧
    bot envC9 pC9 =
      (BotOutcome.ok,
        Effect.jiraSearch sC9.jira_project_key envC9.gh_issue.html_url ::
        componentEffects sC9 ++
        [Effect.jiraCreate
          (mkIssueDict sC9 envC9.gh_issue (renderedIssueBody envC9 sC9)
            ((⟨1, []⟩ : PIssue).labels.map strLower) envC9.project_components)] ++
        (if sC9.add_gh_comment then
          [Effect.createGhComment (ghCommentBody envC9.created_ticket.permalink)]
         else []) ++
        [Effect.jiraAddComment envC9.created_ticket.key
          ("User *" ++ pC9.sender_login ++ "* commented:\n " ++ envC9.render "LGTM")]) :=
  ⟨rfl, rfl,
    C9_created_creates_then_comments envC9 pC9 ⟨1, []⟩ sC9
      { opened := "To Do", closed := "Done" } "LGTM"
      rfl rfl rfl (by decide) rfl (by decide) rfl (by decide) rfl rfl⟩

theorem uint32_le_iff_toNat_le {a b : UInt32} : a ≤ b ↔ a.toNat ≤ b.toNat := by
  rw [UInt32.le_def, BitVec.le_def]
  rfl

theorem toLower_not_upper (c : Char) : (Char.toLower c).isUpper = false := by
  unfold Char.toLower
  show (if c.toNat ≥ 65 ∧ c.toNat ≤ 90 then Char.ofNat (c.toNat + 32) else c).isUpper = false
  by_cases h : c.toNat ≥ 65 ∧ c.toNat ≤ 90
  · rw [if_pos h]
    obtain ⟨h1, h2⟩ := h
    generalize hn : Char.toNat c = n at h1 h2
    interval_cases n <;> decide
  · rw [if_neg h]
    unfold Char.isUpper
    simp only [Bool.and_eq_false_iff, decide_eq_false_iff_not]
    rcases Decidable.not_and_iff_or_not.mp h with h1 | h1
    · left
      intro hle
      exact h1 (uint32_le_iff_toNat_le.mp hle)
    · right
      intro hle
      exact h1 (uint32_le_iff_toNat_le.mp hle)

theorem strLower_ne_of_upper (k : String) (hk : ∃ c ∈ k.data, c.isUpper = true)
    (l : String) : strLower l ≠ k := by
  intro he
  obtain ⟨c, hc, hup⟩ := hk
  rw [← he] at hc
  have hcl : c ∈ l.data.map Char.toLower := hc
  obtain ⟨c0, _, rfl⟩ := List.mem_map.mp hcl
  rw [toLower_not_upper c0] at hup
  cases hup

theorem lookupKey_filter_ne (k x : String) (hx : x ≠ k) :
    ∀ m : List (String × String),
      lookupKey (m.filter (fun e => e.1 != k)) x = lookupKey m x
  | [] => rfl
  | (ek, ev) :: t => by
    by_cases hek : ek = k
    · have hne : ¬ ek = x := fun hh => hx (hh.symm.trans hek)
      have hbne : (ek != k) = false := by simp [hek]
      simp only [List.filter, hbne]
      rw [lookupKey_filter_ne k x hx t, lookupKey, if_neg hne]
    · have hbne : (ek != k) = true := bne_iff_ne.mpr hek
      simp only [List.filter, hbne]
      rw [lookupKey, lookupKey]
      split
      · rfl
      · exact lookupKey_filter_ne k x hx t

theorem scanLabels_congr (m m2 : List (String × String)) :
    ∀ labels : List String, (∀ l ∈ labels, lookupKey m l = lookupKey m2 l) →
      scanLabels m labels = scanLabels m2 labels
  | [], _ => rfl
  | l :: ls, h => by
    rw [scanLabels, scanLabels, ← h l (List.mem_cons_self l ls)]
    cases lookupKey m l with
    | some t => rfl
    | none => exact scanLabels_congr m m2 ls (fun x hx => h x (List.mem_cons_of_mem l hx))

/-- C10: the issue-type lookup lowercases the issue's label names but not
the mapping keys, so a labelMapping key containing an (ASCII) uppercase
character never equals any lowered label, and removing all entries with
that key from the mapping never changes the resolved issue type. -/
theorem C10_uppercase_key_never_matches (k : String)
    (hk : ∃ c ∈ k.data, c.isUpper = true)
    (mapping : List (String × String)) (labels : List String) :
    (∀ l ∈ labels.map strLower, l ≠ k) ∧
    computeIssueType mapping (labels.map strLower)
      = computeIssueType (mapping.filter (fun e => e.1 != k))
          (labels.map strLower) := by
  have hne : ∀ l : String, strLower l ≠ k := strLower_ne_of_upper k hk
  constructor
  · intro l hl
    obtain ⟨l0, _, rfl⟩ := List.mem_map.mp hl
    exact hne l0
  · rw [computeIssueType_eq_scan, computeIssueType_eq_scan]
    apply scanLabels_congr
    intro l hl
    obtain ⟨l0, _, rfl⟩ := List.mem_map.mp hl
    exact (lookupKey_filter_ne k (strLower l0) (hne l0) mapping).symm

/-- Witness for C10: the key "Bug" (capital B) never matches and its
removal leaves the resolved type unchanged. -/
theorem C10_uppercase_key_never_matches_witness :
    (∃ c ∈ "Bug".data, c.isUpper = true) ∧
    (∀ l ∈ (["BUG"].map strLower), l ≠ "Bug") ∧
    computeIssueType [("Bug", "Epic"), ("bug", "Task")] (["BUG"].map strLower)
      = computeIssueType
          ([("Bug", "Epic"), ("bug", "Task")].filter (fun e => e.1 != "Bug"))
          (["BUG"].map strLower) :=
  ⟨by decide,
   (C10_uppercase_key_never_matches "Bug" (by decide)
      [("Bug", "Epic"), ("bug", "Task")] ["BUG"]).1,
   (C10_uppercase_key_never_matches "Bug" (by decide)
      [("Bug", "Epic"), ("bug", "Task")] ["BUG"]).2⟩
